import Mathlib

/-!
Shallow embedding of `src/camera/control.py` (class `CameraController`),
the process-orchestration core of the repository: stream session
(`start_stream` / `stop_stream` / `start_http_server` / `stop_http_server`),
recording registry (`start_recording` / `stop_recording` /
`get_recording_status` / `cleanup_finished_recordings`), batch frame capture
(`capture_frames_from_stream`) and settings update (`set_camera_settings`).

Subprocess handles are modelled abstractly: a handle records whether the
process is currently alive (`poll() is None`) and whether it exits within the
bounded `wait(timeout=...)` that follows a `terminate()` call
(`exitsOnTerm = false` models the wait raising `TimeoutExpired`).  Each
operation returns, besides its Python return value and the successor state of
the module-level globals, the list of termination signals it sent, so that
signal targets and ordering can be stated.  Spawn outcomes and post-settle
liveness of freshly launched processes are supplied by an explicit
environment record, mirroring the nondeterminism of the external processes.
-/

/-- Abstract handle to a spawned subprocess.  `alive` is the result of
`poll() is None`; `exitsOnTerm` says whether, after `terminate()`, the
bounded `wait(timeout=...)` returns before the deadline (when `false`, the
wait raises `TimeoutExpired`). -/
structure ProcHandle where
  alive : Bool
  exitsOnTerm : Bool
deriving Repr, DecidableEq

/-- Identity of a process a signal can target.  `streamLocal` is the global
`_stream_process` (the local ffmpeg transcode consumer of the stream pipe),
`streamRemote` the ssh capture producer launched by `start_stream` (whose
handle the source never stores), `httpServer` the global
`_http_server_process`, and `recLocal rid` / `recRemote rid` the
ffmpeg / ssh processes of recording `rid`. -/
inductive ProcId where
  | streamLocal
  | streamRemote
  | httpServer
  | recLocal (rid : String)
  | recRemote (rid : String)
deriving Repr, DecidableEq

/-- A termination signal sent to a process: `term` models
`Popen.terminate()` (graceful), `kill` models `Popen.kill()` (forced). -/
inductive Sig where
  | term (p : ProcId)
  | kill (p : ProcId)
deriving Repr, DecidableEq

/-- The process a signal targets. -/
def Sig.target : Sig → ProcId
  | .term p => p
  | .kill p => p

/-- Whether a signal is a forced kill. -/
def Sig.isKill : Sig → Bool
  | .term _ => false
  | .kill _ => true

/-- The module-level stream globals of `control.py`: `_stream_process`
(local ffmpeg of the active stream pipe, `none` before any start) and
`_http_server_process`.  The ssh producer of the stream pipe has no field
because the source keeps it only in a local variable of `start_stream`. -/
structure StreamState where
  streamProc : Option ProcHandle
  httpProc : Option ProcHandle
deriving Repr, DecidableEq

/-- Python truthiness-plus-liveness test `p and p.poll() is None` on an
optional handle. -/
def optAlive : Option ProcHandle → Bool
  | some p => p.alive
  | none => false

/-- Environment of one `start_stream` call: spawn outcomes (a `false`
spawn models `subprocess.Popen` raising) and the state of freshly launched
processes after the settle sleep. -/
structure LaunchEnv where
  httpSpawnOk : Bool
  httpAliveAfterSettle : Bool
  httpExitsOnTerm : Bool
  sshSpawnOk : Bool
  ffmpegSpawnOk : Bool
  pipeAliveAfterSettle : Bool
  pipeExitsOnTerm : Bool
deriving Repr, DecidableEq

/-- `CameraController.start_http_server`: if the server is already alive,
report success without touching it; otherwise spawn it (a failed spawn is
caught and reported as `false` with the global unchanged), sleep, and report
whether it survived the settle window (the fresh handle is stored in the
global either way). -/
def start_http_server (st : StreamState) (env : LaunchEnv) : Bool × StreamState :=
  if optAlive st.httpProc then
    (true, st)
  else if env.httpSpawnOk then
    (env.httpAliveAfterSettle,
      { st with httpProc := some ⟨env.httpAliveAfterSettle, env.httpExitsOnTerm⟩ })
  else
    (false, st)

/-- `CameraController.stop_http_server`: if the server is alive, terminate
it and wait up to 5 s, escalating to `kill()` on `TimeoutExpired` (both
paths return `True`); otherwise report success without signalling. -/
def stop_http_server (st : StreamState) : Bool × List Sig × StreamState :=
  match st.httpProc with
  | some p =>
    if p.alive then
      if p.exitsOnTerm then
        (true, [Sig.term ProcId.httpServer],
          { st with httpProc := some ⟨false, p.exitsOnTerm⟩ })
      else
        (true, [Sig.term ProcId.httpServer, Sig.kill ProcId.httpServer],
          { st with httpProc := some ⟨false, p.exitsOnTerm⟩ })
    else (true, [], st)
  | none => (true, [], st)

/-- `CameraController.start_stream`: if the stream pipe's local process is
alive, return `True` immediately with everything unchanged; otherwise start
the http server (propagating its failure), spawn the ssh producer and the
ffmpeg consumer (a failed spawn is caught and reported as `false`; an ssh
process already spawned at that point is simply abandoned), store the ffmpeg
handle in the global, sleep the settle window, and report its liveness.
Besides the Python boolean and the successor state it returns the list of
processes the call spawned; note that it stores no handle for
`streamRemote` and sends no signal on any path. -/
def start_stream (st : StreamState) (env : LaunchEnv) :
    Bool × List ProcId × StreamState :=
  if optAlive st.streamProc then
    (true, [], st)
  else
    let res := start_http_server st env
    if !res.1 then
      (false, [], res.2)
    else if !env.sshSpawnOk then
      (false, [], res.2)
    else if !env.ffmpegSpawnOk then
      (false, [ProcId.streamRemote], res.2)
    else
      (env.pipeAliveAfterSettle, [ProcId.streamRemote, ProcId.streamLocal],
        { res.2 with streamProc := some ⟨env.pipeAliveAfterSettle, env.pipeExitsOnTerm⟩ })

/-- `CameraController.stop_stream`: if the stream pipe's local ffmpeg is
alive, terminate it and wait up to 5 s, escalating to `kill()` on
`TimeoutExpired`; then stop the http server.  The ssh producer of the pipe
is never signalled (its handle was never stored).  In every modelled path
the call returns `True`. -/
def stop_stream (st : StreamState) : Bool × List Sig × StreamState :=
  let step1 : List Sig × StreamState :=
    match st.streamProc with
    | some p =>
      if p.alive then
        if p.exitsOnTerm then
          ([Sig.term ProcId.streamLocal],
            { st with streamProc := some ⟨false, p.exitsOnTerm⟩ })
        else
          ([Sig.term ProcId.streamLocal, Sig.kill ProcId.streamLocal],
            { st with streamProc := some ⟨false, p.exitsOnTerm⟩ })
      else ([], st)
    | none => ([], st)
  let step2 := stop_http_server step1.2
  (step2.1, step1.1 ++ step2.2.1, step2.2.2)

/-- Metadata of one recording, the value stored in the module-level
`_recording_processes` dictionary: both process handles of its pipe, the
output path, the `time.time()` at start and the planned duration in
seconds. -/
structure RecEntry where
  sshProc : ProcHandle
  ffmpegProc : ProcHandle
  outputPath : String
  startTime : ℚ
  duration : ℚ
deriving Repr, DecidableEq

/-- The `_recording_processes` dictionary, as an insertion-ordered
association list (Python dict iteration order). -/
abbrev Registry := List (String × RecEntry)

/-- Python `d[k]` lookup (first — and in a dict, only — binding of `k`). -/
def dictFind (k : String) : Registry → Option RecEntry
  | [] => none
  | kv :: rest => if kv.1 == k then some kv.2 else dictFind k rest

/-- Python `d[k] = v`: overwrite in place when the key exists, else append. -/
def dictInsert (k : String) (v : RecEntry) : Registry → Registry
  | [] => [(k, v)]
  | kv :: rest => if kv.1 == k then (k, v) :: rest else kv :: dictInsert k v rest

/-- Python `del d[k]` (on a key known to be present). -/
def dictRemove (k : String) (reg : Registry) : Registry :=
  reg.filter (fun kv => kv.1 != k)

/-- The recording id `start_recording` generates from one `int(time.time())`
reading: the string `rec_<seconds>`. -/
def recIdOf (tsec : Int) : String := "rec_" ++ toString tsec

/-- Environment of one `start_recording` call: spawn outcomes and the
handles of the freshly spawned ssh / ffmpeg processes. -/
structure RecLaunchEnv where
  sshSpawnOk : Bool
  ffmpegSpawnOk : Bool
  sshHandle : ProcHandle
  ffmpegHandle : ProcHandle
deriving Repr, DecidableEq

/-- `CameraController.start_recording`: generate the id `rec_<int(time.time())>`
(`tsec` is that clock reading; `now` is the separate `time.time()` reading
stored as `start_time`), spawn the ssh producer and ffmpeg consumer (a
failed spawn is caught and the call returns `none` with the registry
unchanged), and insert the entry under the id — a plain `d[k] = v`, which
overwrites any existing entry with the same id. -/
def start_recording (reg : Registry) (tsec : Int) (now : ℚ) (duration : ℚ)
    (outputPath : String) (env : RecLaunchEnv) : Option String × Registry :=
  let rid := recIdOf tsec
  if env.sshSpawnOk then
    if env.ffmpegSpawnOk then
      (some rid,
        dictInsert rid ⟨env.sshHandle, env.ffmpegHandle, outputPath, now, duration⟩ reg)
    else (none, reg)
  else (none, reg)

/-- `CameraController.stop_recording`: unknown id prints "not found" and
returns `False` without touching anything.  Otherwise: terminate the ffmpeg
consumer if alive and wait up to 10 s, then terminate the ssh producer if
alive and wait up to 5 s, then delete the entry and return `True`.  There is
no `TimeoutExpired` handler: a wait that times out is caught by the generic
`except`, which returns `False` — no `kill()` is ever sent and the entry
stays in the registry. -/
def stop_recording (reg : Registry) (rid : String) : Bool × List Sig × Registry :=
  match dictFind rid reg with
  | none => (false, [], reg)
  | some rec =>
    if rec.ffmpegProc.alive then
      if rec.ffmpegProc.exitsOnTerm then
        let rec1 : RecEntry := { rec with ffmpegProc := ⟨false, rec.ffmpegProc.exitsOnTerm⟩ }
        if rec1.sshProc.alive then
          if rec1.sshProc.exitsOnTerm then
            (true, [Sig.term (ProcId.recLocal rid), Sig.term (ProcId.recRemote rid)],
              dictRemove rid reg)
          else
            (false, [Sig.term (ProcId.recLocal rid), Sig.term (ProcId.recRemote rid)],
              dictInsert rid rec1 reg)
        else
          (true, [Sig.term (ProcId.recLocal rid)], dictRemove rid reg)
      else
        (false, [Sig.term (ProcId.recLocal rid)], reg)
    else
      if rec.sshProc.alive then
        if rec.sshProc.exitsOnTerm then
          (true, [Sig.term (ProcId.recRemote rid)], dictRemove rid reg)
        else
          (false, [Sig.term (ProcId.recRemote rid)], reg)
      else
        (true, [], dictRemove rid reg)

/-- The per-id dictionary `get_recording_status` returns on success. -/
structure RecStatus where
  recording_id : String
  output_path : String
  elapsed_time : ℚ
  remaining_time : ℚ
  is_active : Bool
  progress_percent : ℚ
deriving Repr, DecidableEq

/-- `CameraController.get_recording_status` with an id: unknown ids yield
the error dictionary; otherwise elapsed = now − start, remaining =
max(0, duration − elapsed), is_active from the ffmpeg consumer's liveness,
progress = min(100, elapsed/duration·100). -/
def get_recording_status (reg : Registry) (rid : String) (now : ℚ) :
    Except String RecStatus :=
  match dictFind rid reg with
  | none => .error ("Recording " ++ rid ++ " not found")
  | some rec =>
    let elapsed := now - rec.startTime
    .ok { recording_id := rid
          output_path := rec.outputPath
          elapsed_time := elapsed
          remaining_time := max 0 (rec.duration - elapsed)
          is_active := rec.ffmpegProc.alive
          progress_percent := min 100 ((elapsed / rec.duration) * 100) }

/-- The `progress_percent` field of a successful status query, `none` on the
not-found error. -/
def progress_percent_at (reg : Registry) (rid : String) (now : ℚ) : Option ℚ :=
  match get_recording_status reg rid now with
  | .ok s => some s.progress_percent
  | .error _ => none

/-- `CameraController.cleanup_finished_recordings`: collect the ids whose
ffmpeg consumer has exited (`poll() is not None`), delete each collected id
from the dictionary, return how many were collected. -/
def cleanup_finished_recordings (reg : Registry) : Nat × Registry :=
  let finished := (reg.filter (fun kv => kv.2.ffmpegProc.alive = false)).map Prod.fst
  (finished.length, finished.foldl (fun r k => dictRemove k r) reg)

/-- Outcome of one sample of `capture_frames_from_stream`: the frame
extractor ran to completion with an exit code and a file-existence result,
or `subprocess.run` raised `TimeoutExpired` (10 s budget), or some other
exception was raised — the loop body catches the last two. -/
inductive SampleOutcome where
  | completed (returncode : Int) (fileExists : Bool)
  | timeout
  | exc
deriving Repr, DecidableEq

/-- The source's per-sample success test: the extractor exited with code 0
and the output file exists. -/
def sampleSucceeds : SampleOutcome → Bool
  | .completed rc ex => rc == 0 && ex
  | .timeout => false
  | .exc => false

/-- `CameraController.capture_frames_from_stream`: loop `i` over `count`
samples; the outcome of sample `i` is `env i` and its generated
timestamped output path is `path i`.  A successful sample appends its path
to the result; a failed, timed-out or raising sample is caught and skipped.
The list of successful paths is returned. -/
def capture_frames_from_stream (count : Nat) (env : Nat → SampleOutcome)
    (path : Nat → String) : List String :=
  (List.range count).foldl
    (fun acc i => if sampleSucceeds (env i) then acc ++ [path i] else acc) []

/-- The module-level camera-settings defaults `DEFAULT_WIDTH`,
`DEFAULT_HEIGHT`, `DEFAULT_FRAMERATE`, `DEFAULT_BITRATE` that
`set_camera_settings` mutates via `globals()`. -/
structure CameraDefaults where
  width : Int
  height : Int
  framerate : Int
  bitrate : Int
deriving Repr, DecidableEq

/-- Membership test of a key in the source's `valid_settings` list. -/
def validSettingKey (k : String) : Bool :=
  k == "width" || k == "height" || k == "framerate" || k == "bitrate"

/-- Effect of `globals()[f'DEFAULT_{key.upper()}'] = value` for a valid key. -/
def applySetting (d : CameraDefaults) (k : String) (v : Int) : CameraDefaults :=
  if k == "width" then { d with width := v }
  else if k == "height" then { d with height := v }
  else if k == "framerate" then { d with framerate := v }
  else if k == "bitrate" then { d with bitrate := v }
  else d

/-- `CameraController.set_camera_settings`: iterate the settings mapping in
insertion order; a recognized key immediately mutates the module-level
default, an unrecognized key makes the call return `False` on the spot,
leaving every default already mutated in place.  Returns `True` after the
last item otherwise. -/
def set_camera_settings (d : CameraDefaults) : List (String × Int) → Bool × CameraDefaults
  | [] => (true, d)
  | (k, v) :: rest =>
    if validSettingKey k then set_camera_settings (applySetting d k v) rest
    else (false, d)

/-- Helper: `stop_http_server` returns `True` in every modelled path
(running server terminated or killed, or nothing running). -/
theorem stop_http_server_returns_true (st : StreamState) :
    (stop_http_server st).1 = true := by
  unfold stop_http_server
  rcases st with ⟨sp, hp⟩
  rcases hp with _ | p
  · rfl
  · by_cases h1 : p.alive <;> by_cases h2 : p.exitsOnTerm <;> simp [h1, h2]

/-- Helper: `stop_stream` returns `True` in every modelled path. -/
theorem stop_stream_returns_true (st : StreamState) :
    (stop_stream st).1 = true := by
  unfold stop_stream
  exact stop_http_server_returns_true _

/-- C3: a `startStream` call while the active pipe's local process is alive
returns success immediately, spawns nothing, and leaves the state — in
particular the identity of the active pipe — unchanged.  (At most one
non-empty active pipe can exist at any time because the state holds a single
optional stream-pipe handle.) -/
theorem start_stream_idempotent_when_running (st : StreamState) (env : LaunchEnv)
    (h : optAlive st.streamProc = true) :
    start_stream st env = (true, [], st) := by
  simp [start_stream, h]

/-- Witness for C3 at a concrete running state. -/
theorem start_stream_idempotent_when_running_witness :
    optAlive (StreamState.mk (some ⟨true, true⟩) none).streamProc = true ∧
    start_stream (StreamState.mk (some ⟨true, true⟩) none)
        ⟨true, true, true, true, true, true, true⟩
      = (true, [], StreamState.mk (some ⟨true, true⟩) none) :=
  ⟨by decide,
   start_stream_idempotent_when_running (StreamState.mk (some ⟨true, true⟩) none)
     ⟨true, true, true, true, true, true, true⟩ (by decide)⟩

/-- C8: `stopStream` with no active stream pipe and no running file server
returns success, sends no signal, and changes nothing. -/
theorem stop_stream_idempotent_when_stopped (st : StreamState)
    (h1 : optAlive st.streamProc = false) (h2 : optAlive st.httpProc = false) :
    stop_stream st = (true, [], st) := by
  rcases st with ⟨sp, hp⟩
  rcases sp with _ | p <;> rcases hp with _ | q <;>
    simp_all [stop_stream, stop_http_server, optAlive]

/-- Witness for C8 at a concrete stopped state. -/
theorem stop_stream_idempotent_when_stopped_witness :
    optAlive (StreamState.mk none (some ⟨false, true⟩)).streamProc = false ∧
    optAlive (StreamState.mk none (some ⟨false, true⟩)).httpProc = false ∧
    stop_stream (StreamState.mk none (some ⟨false, true⟩))
      = (true, [], StreamState.mk none (some ⟨false, true⟩)) :=
  ⟨by decide, by decide,
   stop_stream_idempotent_when_stopped (StreamState.mk none (some ⟨false, true⟩))
     (by decide) (by decide)⟩

/-- C7: for an id absent from the registry, `stopRecording` returns failure
without signalling anything and leaves the registry unchanged, and
`status(id)` returns the not-found error; by contrast the stream-side stop
operations never report an error on an absent or stopped resource
(`stop_stream` and `stop_http_server` return `True` on every state). -/
theorem absent_recording_id_errors (reg : Registry) (rid : String) (now : ℚ)
    (st : StreamState) (h : dictFind rid reg = none) :
    stop_recording reg rid = (false, [], reg) ∧
    get_recording_status reg rid now
      = Except.error ("Recording " ++ rid ++ " not found") ∧
    (stop_stream st).1 = true ∧
    (stop_http_server st).1 = true := by
  refine ⟨?_, ?_, stop_stream_returns_true st, stop_http_server_returns_true st⟩
  · unfold stop_recording
    rw [h]
  · unfold get_recording_status
    rw [h]

/-- Witness for C7 at a concrete absent id. -/
theorem absent_recording_id_errors_witness :
    dictFind "rec_999" [] = none ∧
    stop_recording [] "rec_999" = (false, [], []) ∧
    get_recording_status [] "rec_999" 0
      = Except.error ("Recording " ++ "rec_999" ++ " not found") ∧
    (stop_stream (StreamState.mk none none)).1 = true :=
  ⟨by decide,
   (absent_recording_id_errors [] "rec_999" 0 (StreamState.mk none none) (by decide)).1,
   (absent_recording_id_errors [] "rec_999" 0 (StreamState.mk none none) (by decide)).2.1,
   (absent_recording_id_errors [] "rec_999" 0 (StreamState.mk none none) (by decide)).2.2.1⟩

/-- C1 counterexample: at a state whose stream pipe and http server are both
alive, `stop_stream` signals only the local transcode consumer and the http
server — no termination signal ever targets the remote capture producer,
whose handle the source never stored; and at a registry whose single entry
has an alive local consumer that outlives the bounded wait, `stop_recording`
sends the graceful signal but never escalates to a forced kill: it returns
failure and leaves the entry (with its still-alive process) in the registry.
Both parts contradict the claim that every stop signals both sub-processes
and forcibly kills any process still alive after the wait. -/
theorem stop_stream_no_remote_signal_cex :
    ((stop_stream (StreamState.mk (some ⟨true, true⟩) (some ⟨true, true⟩))).2.1.map Sig.target
      = [ProcId.streamLocal, ProcId.httpServer]) ∧
    (ProcId.streamRemote ∉
      (stop_stream (StreamState.mk (some ⟨true, true⟩) (some ⟨true, true⟩))).2.1.map Sig.target) ∧
    stop_recording [("rec_1000", ⟨⟨true, true⟩, ⟨true, false⟩, "/tmp/r.mp4", 1000, 30⟩)] "rec_1000"
      = (false, [Sig.term (ProcId.recLocal "rec_1000")],
         [("rec_1000", ⟨⟨true, true⟩, ⟨true, false⟩, "/tmp/r.mp4", 1000, 30⟩)]) := by
  refine ⟨by decide, by decide, by decide⟩

/-- C1 amended: stream stop signals only the local transcode consumer and
the http server (the remote capture producer, whose handle is never stored,
receives no signal at all), escalating to a forced kill when the local
process outlives its bounded wait; recording stop signals the local
consumer first and the remote producer second, each with a bounded wait,
but never escalates to a forced kill — when the local consumer outlives its
wait the stop returns failure and leaves the entry in the registry. -/
theorem stop_termination_signal_behavior (st : StreamState) (reg : Registry)
    (rid : String) (rec : RecEntry) (p : ProcHandle) :
    ((stop_stream st).2.1.all
        (fun s => s.target == ProcId.streamLocal || s.target == ProcId.httpServer)) = true ∧
    (st.streamProc = some p → p.alive = true → p.exitsOnTerm = false →
        Sig.kill ProcId.streamLocal ∈ (stop_stream st).2.1) ∧
    ((stop_recording reg rid).2.1.all (fun s => !s.isKill)) = true ∧
    (dictFind rid reg = some rec → rec.ffmpegProc.alive = true →
        rec.ffmpegProc.exitsOnTerm = true → rec.sshProc.alive = true →
        (stop_recording reg rid).2.1
          = [Sig.term (ProcId.recLocal rid), Sig.term (ProcId.recRemote rid)]) ∧
    (dictFind rid reg = some rec → rec.ffmpegProc.alive = true →
        rec.ffmpegProc.exitsOnTerm = false →
        stop_recording reg rid = (false, [Sig.term (ProcId.recLocal rid)], reg)) := by
  refine ⟨?_, ?_, ?_, ?_, ?_⟩
  · rcases st with ⟨sp, hp⟩
    rcases sp with _ | q <;> rcases hp with _ | r
    · simp [stop_stream, stop_http_server]
    · by_cases h3 : r.alive <;> by_cases h4 : r.exitsOnTerm <;>
        simp [stop_stream, stop_http_server, h3, h4, Sig.target]
    · by_cases h1 : q.alive <;> by_cases h2 : q.exitsOnTerm <;>
        simp [stop_stream, stop_http_server, h1, h2, Sig.target]
    · by_cases h1 : q.alive <;> by_cases h2 : q.exitsOnTerm <;>
        by_cases h3 : r.alive <;> by_cases h4 : r.exitsOnTerm <;>
        simp [stop_stream, stop_http_server, h1, h2, h3, h4, Sig.target]
  · intro hsp hal hterm
    rcases st with ⟨sp, hp⟩
    subst hsp
    rcases hp with _ | r <;>
      simp_all [stop_stream, stop_http_server]
  · unfold stop_recording
    cases h : dictFind rid reg with
    | none => rfl
    | some rec' =>
      by_cases h1 : rec'.ffmpegProc.alive <;> by_cases h2 : rec'.ffmpegProc.exitsOnTerm <;>
        by_cases h3 : rec'.sshProc.alive <;> by_cases h4 : rec'.sshProc.exitsOnTerm <;>
        simp [h1, h2, h3, h4, Sig.isKill]
  · intro hfind h1 h2 h3
    unfold stop_recording
    rw [hfind]
    simp [h1, h2, h3]
    by_cases h4 : rec.sshProc.exitsOnTerm <;> simp [h4]
  · intro hfind h1 h2
    unfold stop_recording
    rw [hfind]
    simp [h1, h2]

/-- Witness for the amended C1 at concrete states: a stream whose local
consumer survives the wait gets a forced kill; a recording whose two
processes both exit on signal is signalled local-then-remote; a recording
whose local consumer survives the wait is not killed and stays registered. -/
theorem stop_termination_signal_behavior_witness :
    Sig.kill ProcId.streamLocal ∈
      (stop_stream (StreamState.mk (some ⟨true, false⟩) none)).2.1 ∧
    (stop_recording [("r", ⟨⟨true, true⟩, ⟨true, true⟩, "p", 0, 30⟩)] "r").2.1
      = [Sig.term (ProcId.recLocal "r"), Sig.term (ProcId.recRemote "r")] ∧
    stop_recording [("q", ⟨⟨true, true⟩, ⟨true, false⟩, "p", 0, 30⟩)] "q"
      = (false, [Sig.term (ProcId.recLocal "q")],
         [("q", ⟨⟨true, true⟩, ⟨true, false⟩, "p", 0, 30⟩)]) := by
  have T1 := stop_termination_signal_behavior (StreamState.mk (some ⟨true, false⟩) none)
    [("r", ⟨⟨true, true⟩, ⟨true, true⟩, "p", 0, 30⟩)] "r"
    ⟨⟨true, true⟩, ⟨true, true⟩, "p", 0, 30⟩ ⟨true, false⟩
  have T2 := stop_termination_signal_behavior (StreamState.mk (some ⟨true, false⟩) none)
    [("q", ⟨⟨true, true⟩, ⟨true, false⟩, "p", 0, 30⟩)] "q"
    ⟨⟨true, true⟩, ⟨true, false⟩, "p", 0, 30⟩ ⟨true, false⟩
  exact ⟨T1.2.1 rfl rfl rfl, T1.2.2.2.1 (by decide) rfl rfl rfl,
         T2.2.2.2.2 (by decide) rfl rfl⟩

/-- C2 failing input: two `start_recording` calls whose `int(time.time())`
readings fall in the same clock second (here both in second 1000) both
generate the id `rec_1000`; the second call's
`d[id] = entry` insertion overwrites the first call's entry, so the registry
ends with a single entry (the second call's output path) instead of two
independently trackable entries — contradicting the code's own
"Generate unique recording ID" comment and the spec. -/
theorem start_recording_same_second_collision :
    (start_recording [] 1000 (1000 : ℚ) 30 "/tmp/a.mp4"
        ⟨true, true, ⟨true, true⟩, ⟨true, true⟩⟩).1 = some "rec_1000" ∧
    start_recording
        (start_recording [] 1000 (1000 : ℚ) 30 "/tmp/a.mp4"
          ⟨true, true, ⟨true, true⟩, ⟨true, true⟩⟩).2
        1000 (1000 : ℚ) 30 "/tmp/b.mp4" ⟨true, true, ⟨true, true⟩, ⟨true, true⟩⟩
      = (some "rec_1000",
         [("rec_1000", ⟨⟨true, true⟩, ⟨true, true⟩, "/tmp/b.mp4", 1000, 30⟩)]) := by
  refine ⟨by decide, by decide⟩

/-- C4 counterexample: from an idle state, with the http server spawning
and surviving its settle window but the stream pipe dying within its own
settle window, `start_stream` returns failure yet the http file server it
started is still alive in the resulting state, and the remote capture
process it spawned has no handle anywhere in the state (both dangling
resources the claim says cannot remain). -/
theorem start_stream_failed_settle_dangling_cex :
    start_stream (StreamState.mk none none) ⟨true, true, true, true, true, false, true⟩
      = (false, [ProcId.streamRemote, ProcId.streamLocal],
         StreamState.mk (some ⟨false, true⟩) (some ⟨true, true⟩)) ∧
    optAlive (start_stream (StreamState.mk none none)
        ⟨true, true, true, true, true, false, true⟩).2.2.httpProc = true := by
  refine ⟨by decide, by decide⟩

/-- C4 amended: when the freshly launched pipe is already dead after the
settle window, `start_stream` reports failure, but the file server it
started for that call remains running in the resulting state, and the
remote capture process it spawned is left untracked (the state stores no
handle for it, so no later stop can signal it). -/
theorem start_stream_failed_settle_behavior (st : StreamState) (env : LaunchEnv)
    (h1 : optAlive st.streamProc = false) (h2 : optAlive st.httpProc = false)
    (h3 : env.httpSpawnOk = true) (h4 : env.httpAliveAfterSettle = true)
    (h5 : env.sshSpawnOk = true) (h6 : env.ffmpegSpawnOk = true)
    (h7 : env.pipeAliveAfterSettle = false) :
    start_stream st env
      = (false, [ProcId.streamRemote, ProcId.streamLocal],
         StreamState.mk (some ⟨false, env.pipeExitsOnTerm⟩)
           (some ⟨true, env.httpExitsOnTerm⟩)) := by
  rcases st with ⟨sp, hp⟩
  simp [start_stream, start_http_server, h1, h2, h3, h4, h5, h6, h7]

/-- Witness for the amended C4 at a concrete idle state and environment. -/
theorem start_stream_failed_settle_behavior_witness :
    start_stream (StreamState.mk none (some ⟨false, false⟩))
        ⟨true, true, true, true, true, false, true⟩
      = (false, [ProcId.streamRemote, ProcId.streamLocal],
         StreamState.mk (some ⟨false, true⟩) (some ⟨true, true⟩)) :=
  start_stream_failed_settle_behavior (StreamState.mk none (some ⟨false, false⟩))
    ⟨true, true, true, true, true, false, true⟩
    (by decide) (by decide) (by decide) (by decide) (by decide) (by decide) (by decide)

/-- C5: for an entry present in the registry, `get_recording_status`
computes elapsed = now − startedAt, remaining = max(0, duration − elapsed),
isActive from the liveness of the pipe's local ffmpeg process, and
progressPercent = min(100, elapsed/duration·100); while the entry exists
the progress percentage is monotonically non-decreasing in `now` and equals
100 once elapsed ≥ duration. -/
theorem get_recording_status_progress_spec (reg : Registry) (rid : String)
    (rec : RecEntry) (now1 now2 : ℚ)
    (hfind : dictFind rid reg = some rec) (hd : 0 < rec.duration) :
    (∀ now : ℚ, get_recording_status reg rid now
        = Except.ok ⟨rid, rec.outputPath, now - rec.startTime,
            max 0 (rec.duration - (now - rec.startTime)), rec.ffmpegProc.alive,
            min 100 (((now - rec.startTime) / rec.duration) * 100)⟩) ∧
    (now1 ≤ now2 → ∀ q1 q2, progress_percent_at reg rid now1 = some q1 →
        progress_percent_at reg rid now2 = some q2 → q1 ≤ q2) ∧
    (rec.startTime + rec.duration ≤ now1 →
        progress_percent_at reg rid now1 = some 100) := by
  have hstat : ∀ now : ℚ, get_recording_status reg rid now
      = Except.ok ⟨rid, rec.outputPath, now - rec.startTime,
          max 0 (rec.duration - (now - rec.startTime)), rec.ffmpegProc.alive,
          min 100 (((now - rec.startTime) / rec.duration) * 100)⟩ := by
    intro now
    unfold get_recording_status
    rw [hfind]
  have hprog : ∀ now : ℚ, progress_percent_at reg rid now
      = some (min 100 (((now - rec.startTime) / rec.duration) * 100)) := by
    intro now
    unfold progress_percent_at
    rw [hstat now]
  refine ⟨hstat, ?_, ?_⟩
  · intro hle q1 q2 h1 h2
    rw [hprog now1] at h1
    rw [hprog now2] at h2
    injection h1 with h1'
    injection h2 with h2'
    subst h1'
    subst h2'
    refine min_le_min le_rfl ?_
    refine mul_le_mul_of_nonneg_right ?_ (by norm_num)
    exact (div_le_div_iff_of_pos_right hd).mpr (sub_le_sub_right hle _)
  · intro hpast
    rw [hprog now1]
    have h1 : (1 : ℚ) ≤ (now1 - rec.startTime) / rec.duration := by
      rw [le_div_iff₀ hd]
      linarith
    have h2 : (100 : ℚ) ≤ (now1 - rec.startTime) / rec.duration * 100 := by
      nlinarith
    rw [min_eq_left h2]

/-- Witness for C5 at a concrete 30-second recording started at second
1000: the status dictionary at 1005, the clamped 100% once past the
planned end, and monotonicity between 1040 and 1050. -/
theorem get_recording_status_progress_spec_witness :
    get_recording_status [("rec_1000", ⟨⟨true, true⟩, ⟨true, true⟩, "/tmp/r.mp4", 1000, 30⟩)]
        "rec_1000" 1005
      = Except.ok ⟨"rec_1000", "/tmp/r.mp4", 1005 - 1000, max 0 (30 - (1005 - 1000)), true,
          min 100 (((1005 - 1000) / 30) * 100)⟩ ∧
    progress_percent_at [("rec_1000", ⟨⟨true, true⟩, ⟨true, true⟩, "/tmp/r.mp4", 1000, 30⟩)]
        "rec_1000" 1040 = some 100 ∧
    (100 : ℚ) ≤ 100 := by
  have T := get_recording_status_progress_spec
    [("rec_1000", ⟨⟨true, true⟩, ⟨true, true⟩, "/tmp/r.mp4", 1000, 30⟩)] "rec_1000"
    ⟨⟨true, true⟩, ⟨true, true⟩, "/tmp/r.mp4", 1000, 30⟩ 1040 1050 rfl (by norm_num)
  have T2 := get_recording_status_progress_spec
    [("rec_1000", ⟨⟨true, true⟩, ⟨true, true⟩, "/tmp/r.mp4", 1000, 30⟩)] "rec_1000"
    ⟨⟨true, true⟩, ⟨true, true⟩, "/tmp/r.mp4", 1000, 30⟩ 1050 1050 rfl (by norm_num)
  exact ⟨T.1 1005, T.2.2 (by norm_num),
         T.2.1 (by norm_num) 100 100 (T.2.2 (by norm_num)) (T2.2.2 (by norm_num))⟩

/-- Helper: the keys of the entries `cleanup_finished_recordings` collects
are keys of the registry. -/
theorem finished_keys_subset (reg : Registry) :
    ((reg.filter (fun kv => kv.2.ffmpegProc.alive = false)).map Prod.fst)
      ⊆ reg.map Prod.fst := by
  intro k hk
  simp only [List.mem_map] at hk ⊢
  obtain ⟨kv, hkv, rfl⟩ := hk
  exact ⟨kv, List.mem_of_mem_filter hkv, rfl⟩

/-- Helper: deleting a key that is not bound leaves the registry alone. -/
theorem dictRemove_absent (k : String) (reg : Registry)
    (h : k ∉ reg.map Prod.fst) : dictRemove k reg = reg := by
  induction reg with
  | nil => rfl
  | cons kv rest ih =>
    simp only [List.map_cons, List.mem_cons, not_or] at h
    simp only [dictRemove, List.filter_cons]
    rw [if_pos (by simp [bne_iff_ne]; exact fun he => h.1 he.symm)]
    have := ih h.2
    simp only [dictRemove] at this
    rw [this]

/-- Helper: a batch of deletions whose keys all differ from the head key
passes over the head entry. -/
theorem foldl_dictRemove_cons (l : List String) (kv : String × RecEntry)
    (reg : Registry) (h : kv.1 ∉ l) :
    l.foldl (fun r k => dictRemove k r) (kv :: reg)
      = kv :: l.foldl (fun r k => dictRemove k r) reg := by
  induction l generalizing reg with
  | nil => rfl
  | cons k rest ih =>
    simp only [List.mem_cons, not_or] at h
    simp only [List.foldl_cons]
    have hstep : dictRemove k (kv :: reg) = kv :: dictRemove k reg := by
      simp only [dictRemove, List.filter_cons]
      rw [if_pos (by simp [bne_iff_ne]; exact fun he => h.1 he)]
    rw [hstep]
    exact ih _ h.2

/-- C6: `cleanup_finished_recordings` on a registry with pairwise-distinct
ids (a dictionary invariant) removes exactly the entries whose local ffmpeg
process has exited and returns how many it removed; every entry whose
process is still alive survives (the operation consults no clock, so
elapsed time is irrelevant). -/
theorem cleanup_finished_removes_exactly_exited (reg : Registry)
    (hnodup : (reg.map Prod.fst).Nodup) :
    cleanup_finished_recordings reg
      = ((reg.filter (fun kv => kv.2.ffmpegProc.alive = false)).length,
         reg.filter (fun kv => kv.2.ffmpegProc.alive = true)) ∧
    ∀ kv ∈ reg, kv.2.ffmpegProc.alive = true →
      kv ∈ (cleanup_finished_recordings reg).2 := by
  have main : ∀ r : Registry, (r.map Prod.fst).Nodup →
      cleanup_finished_recordings r
        = ((r.filter (fun kv => kv.2.ffmpegProc.alive = false)).length,
           r.filter (fun kv => kv.2.ffmpegProc.alive = true)) := by
    intro r hr
    induction r with
    | nil => rfl
    | cons kv rest ih =>
      simp only [List.map_cons, List.nodup_cons] at hr
      have hnotin : kv.1 ∉ (rest.filter (fun x => x.2.ffmpegProc.alive = false)).map Prod.fst :=
        fun hmem => hr.1 (finished_keys_subset rest hmem)
      have ihres := ih hr.2
      by_cases hal : kv.2.ffmpegProc.alive
      · simp only [cleanup_finished_recordings, List.filter_cons] at ihres ⊢
        rw [if_neg (by simp [hal]), if_pos (by simp [hal])]
        rw [foldl_dictRemove_cons _ _ _ hnotin]
        have h1 := congrArg Prod.fst ihres
        have h2 := congrArg Prod.snd ihres
        simp only at h1 h2
        rw [h1, h2]
      · simp only [Bool.not_eq_true] at hal
        simp only [cleanup_finished_recordings, List.filter_cons] at ihres ⊢
        rw [if_pos (by simp [hal]), if_neg (by simp [hal])]
        simp only [List.map_cons, List.foldl_cons, List.length_cons]
        have hstep : dictRemove kv.1 (kv :: rest) = rest := by
          simp only [dictRemove, List.filter_cons]
          rw [if_neg (by simp)]
          have := dictRemove_absent kv.1 rest hr.1
          simpa [dictRemove] using this
        rw [hstep]
        have h1 := congrArg Prod.fst ihres
        have h2 := congrArg Prod.snd ihres
        simp only at h1 h2
        rw [h1, h2]
  refine ⟨main reg hnodup, ?_⟩
  intro kv hmem hal
  rw [main reg hnodup]
  simp only [List.mem_filter]
  exact ⟨hmem, by simp [hal]⟩

/-- Witness for C6 at a concrete two-entry registry: the exited entry is
removed and counted, the running one survives. -/
theorem cleanup_finished_removes_exactly_exited_witness :
    cleanup_finished_recordings
        [("rec_1", ⟨⟨false, true⟩, ⟨false, true⟩, "/tmp/a.mp4", 10, 5⟩),
         ("rec_2", ⟨⟨true, true⟩, ⟨true, true⟩, "/tmp/b.mp4", 11, 5⟩)]
      = (1, [("rec_2", ⟨⟨true, true⟩, ⟨true, true⟩, "/tmp/b.mp4", 11, 5⟩)]) ∧
    ("rec_2", (⟨⟨true, true⟩, ⟨true, true⟩, "/tmp/b.mp4", 11, 5⟩ : RecEntry)) ∈
      (cleanup_finished_recordings
        [("rec_1", ⟨⟨false, true⟩, ⟨false, true⟩, "/tmp/a.mp4", 10, 5⟩),
         ("rec_2", ⟨⟨true, true⟩, ⟨true, true⟩, "/tmp/b.mp4", 11, 5⟩)]).2 := by
  have T := cleanup_finished_removes_exactly_exited
    [("rec_1", ⟨⟨false, true⟩, ⟨false, true⟩, "/tmp/a.mp4", 10, 5⟩),
     ("rec_2", ⟨⟨true, true⟩, ⟨true, true⟩, "/tmp/b.mp4", 11, 5⟩)] (by simp)
  exact ⟨T.1, T.2 _ (by simp) rfl⟩

/-- Helper: the conditional-append loop accumulates exactly the image of
the elements satisfying the test, in order. -/
theorem foldl_append_filter_map (p : Nat → Bool) (f : Nat → String)
    (l : List Nat) (acc : List String) :
    l.foldl (fun a i => if p i then a ++ [f i] else a) acc
      = acc ++ (l.filter p).map f := by
  induction l generalizing acc with
  | nil => simp
  | cons i rest ih =>
    simp only [List.foldl_cons, List.filter_cons]
    by_cases hp : p i
    · rw [if_pos hp, if_pos hp, ih]
      simp
    · rw [if_neg hp, if_neg hp, ih]

/-- C9: `capture_frames_from_stream` is total over its per-sample outcomes
(every failing, timing-out or raising sample is caught and skipped by the
loop body, never escaping the call) and returns exactly the paths of the
samples that succeeded, in order; in particular when every sample fails —
as when no stream is being served — it returns the empty list. -/
theorem capture_frames_best_effort_subset (count : Nat) (env : Nat → SampleOutcome)
    (path : Nat → String) :
    capture_frames_from_stream count env path
      = ((List.range count).filter (fun i => sampleSucceeds (env i))).map path ∧
    ((∀ i, i < count → sampleSucceeds (env i) = false) →
      capture_frames_from_stream count env path = []) := by
  have h1 : capture_frames_from_stream count env path
      = ((List.range count).filter (fun i => sampleSucceeds (env i))).map path := by
    unfold capture_frames_from_stream
    rw [foldl_append_filter_map]
    simp
  refine ⟨h1, ?_⟩
  intro hall
  rw [h1]
  have h2 : (List.range count).filter (fun i => sampleSucceeds (env i)) = [] := by
    rw [List.filter_eq_nil_iff]
    intro a ha
    simp [hall a (List.mem_range.mp ha)]
  rw [h2]
  rfl

/-- Witness for C9: three samples that all time out (no stream served)
produce the empty list without any exception escaping. -/
theorem capture_frames_best_effort_subset_witness :
    capture_frames_from_stream 3 (fun _ => SampleOutcome.timeout) (fun i => toString i)
      = [] :=
  (capture_frames_best_effort_subset 3 (fun _ => SampleOutcome.timeout)
      (fun i => toString i)).2 (fun _ _ => rfl)

/-- C10: on a settings mapping made of recognized keys followed by an
unrecognized key (and anything after it), `set_camera_settings` returns
failure at the unrecognized key, yet every recognized key before it has
already been applied to the process-wide defaults and stays applied in the
returned defaults — the update is not atomic on error. -/
theorem set_camera_settings_nonatomic_on_error (d : CameraDefaults)
    (pre rest : List (String × Int)) (bad : String) (v : Int)
    (hpre : ∀ kv ∈ pre, validSettingKey kv.1 = true)
    (hbad : validSettingKey bad = false) :
    set_camera_settings d (pre ++ (bad, v) :: rest)
      = (false, pre.foldl (fun acc kv => applySetting acc kv.1 kv.2) d) := by
  induction pre generalizing d with
  | nil =>
    simp only [List.nil_append, List.foldl_nil]
    unfold set_camera_settings
    rw [if_neg (by simp [hbad])]
  | cons kv tail ih =>
    have h1 : validSettingKey kv.1 = true := hpre kv (List.mem_cons_self kv tail)
    obtain ⟨k, v'⟩ := kv
    simp only [List.cons_append, List.foldl_cons]
    unfold set_camera_settings
    rw [if_pos h1]
    exact ih _ (fun x hx => hpre x (List.mem_cons_of_mem _ hx))

/-- Witness for C10: width and height are applied before the unrecognized
key "zoom" aborts the call; the returned defaults keep the new width and
height while framerate (after the bad key) was never processed. -/
theorem set_camera_settings_nonatomic_on_error_witness :
    set_camera_settings ⟨640, 480, 15, 2000000⟩
        ([("width", 1920), ("height", 1080)] ++ ("zoom", 3) :: [("framerate", 30)])
      = (false, ⟨1920, 1080, 15, 2000000⟩) :=
  (set_camera_settings_nonatomic_on_error ⟨640, 480, 15, 2000000⟩
      [("width", 1920), ("height", 1080)] [("framerate", 30)] "zoom" 3
      (by decide) (by decide)).trans (by decide)
